import Mathlib

/-!
Shallow embedding of the Polyglot-CPP program lifecycle manager
(`main.py`): the artifact store (`cpp_files`), the expiration reaper
(`cleanup_expired_files`), the build service (`_create_program`), the
execution service (`_run_program`) and the composite orchestrator
(`_create_and_run_program`).

Modelling conventions:
* ISO-8601 timestamp strings (`datetime.now().isoformat()`) are compared
  lexicographically in the source; on same-format timestamps that order
  coincides with chronological order, so timestamps are embedded as `Nat`
  with the same comparison operators as the source.
* The filesystem is a finite set of present paths (`List String`); an
  oracle `fsFail : String → Bool` says whether `os.remove` on a present
  path raises `OSError`.  `os.remove` on an absent path always raises
  (`FileNotFoundError ⊆ OSError`).
* External subprocesses (compiler, program under test, gprof) are opaque
  collaborators; their observable outcomes are inputs to the embedding.
* A Python exception escaping a service function is an `Except.error`
  carrying the in-memory state at the moment of propagation.
-/

set_option autoImplicit false

namespace PolyglotCpp

/-- One value of the `cpp_files` dict: `{"output_path": …, "source_path": …,
"expiration": …}` (main.py lines 109-113). -/
structure FileInfo where
  output_path : String
  source_path : String
  expiration : Nat
deriving Repr, DecidableEq

/-- The `cpp_files` dict: a key-value mapping keyed by `file_id`,
embedded as an association list (first match wins, keys are unique in a
Python dict). -/
abbrev Store := List (String × FileInfo)

/-- Service-visible mutable state: the in-memory `cpp_files` dict, the set of
paths present on the filesystem, and the content of `cpp_files.json` on
disk (what `save_cpp_files` last wrote / what `load_cpp_files` reads). -/
structure SvcState where
  store : Store
  fs : List String
  diskStore : Store
deriving Repr, DecidableEq

/-- `file_id in cpp_files` / `cpp_files[file_id]`: first entry with the key. -/
def storeLookup : Store → String → Option FileInfo
  | [], _ => none
  | (k, v) :: rest, fid => if k = fid then some v else storeLookup rest fid

/-- `del cpp_files[file_id]` / `cpp_files.pop(file_id)`: drop the entries
with the given key (a dict holds at most one). -/
def popId : Store → String → Store
  | [], _ => []
  | (k, v) :: rest, fid =>
    if k = fid then popId rest fid else (k, v) :: popId rest fid

/-- The list comprehension of main.py lines 65-68: ids of the records with
`info["expiration"] < now` (note: strict `<`), in store order. -/
def expiredIds (now : Nat) : Store → List String
  | [] => []
  | (k, v) :: rest =>
    if v.expiration < now then k :: expiredIds now rest else expiredIds now rest

/-- Path membership in the modelled filesystem. -/
def containsPath : List String → String → Bool
  | [], _ => false
  | q :: rest, p => if q = p then true else containsPath rest p

/-- Removing one occurrence of a path from the modelled filesystem. -/
def removePath : List String → String → List String
  | [], _ => []
  | q :: rest, p => if q = p then rest else q :: removePath rest p

/-- Creating a file at a path (writing a file makes the path present). -/
def addFile (fs : List String) (p : String) : List String :=
  if containsPath fs p then fs else p :: fs

/-- `os.remove(p)`: succeeds (path disappears) iff the path is present and
the failure oracle does not flag it; otherwise raises `OSError`. -/
def osRemove (fsFail : String → Bool) (fs : List String) (p : String) :
    Except Unit (List String) :=
  if containsPath fs p && !fsFail p then .ok (removePath fs p) else .error ()

/-- The `try: os.remove(source); os.remove(output) except OSError: log` body
of the reaper loop (main.py lines 71-76): if removing the source raises, the
output removal is skipped; either failure is logged and swallowed. -/
def removeBoth (fsFail : String → Bool) (fs : List String) (info : FileInfo) :
    List String :=
  match osRemove fsFail fs info.source_path with
  | .error _ => fs
  | .ok fs1 =>
    match osRemove fsFail fs1 info.output_path with
    | .error _ => fs1
    | .ok fs2 => fs2

/-- The `for file_id in to_delete` loop of main.py lines 69-76: pop each id
from the store and best-effort delete its two backing files. -/
def sweepLoop (fsFail : String → Bool) :
    List String → Store → List String → Store × List String
  | [], store, fs => (store, fs)
  | fid :: rest, store, fs =>
    match storeLookup store fid with
    | none => sweepLoop fsFail rest store fs
    | some info => sweepLoop fsFail rest (popId store fid) (removeBoth fsFail fs info)

/-- `cleanup_expired_files()` (main.py lines 63-78), parameterised by the
sampled `now` and the filesystem.  Returns the new store, the new
filesystem, and whether `save_cpp_files()` was called (`if to_delete:`). -/
def cleanup_expired_files (fsFail : String → Bool) (now : Nat)
    (store : Store) (fs : List String) : Store × List String × Bool :=
  let to_delete := expiredIds now store
  let res := sweepLoop fsFail to_delete store fs
  (res.1, res.2, !to_delete.isEmpty)

/-- What `load_cpp_files()` (main.py lines 48-57) leaves in `cpp_files`:
`none` = `cpp_files.json` missing, `some none` = present but malformed JSON
(`json.JSONDecodeError`), `some (some s)` = present and parsed as `s`.
Missing and malformed both reset to the empty mapping. -/
def load_cpp_files : Option (Option Store) → Store
  | none => []
  | some none => []
  | some (some s) => s

/-- The `lifespan` startup hook (main.py lines 16-20): `load_cpp_files()`
then `cleanup_expired_files()`. -/
def startup (fsFail : String → Bool) (now : Nat)
    (disk : Option (Option Store)) (fs : List String) :
    Store × List String × Bool :=
  cleanup_expired_files fsFail now (load_cpp_files disk) fs

/-- Outcome of the external compiler invocation (clang++, main.py lines
97-101): exit status and captured streams.  Per the compiler contract, a
usable executable appears at the output path exactly when the exit status
is zero. -/
structure CompileOutcome where
  returncode : Int
  stdout : String
  stderr : String
deriving Repr, DecidableEq

/-- Structured result of `_create_program`: `{"success": False, "error": e}`
or `{"success": True, "file_id": id}`. -/
inductive CreateResult where
  | failure (error : String)
  | success (file_id : String)
deriving Repr, DecidableEq

/-- `_create_program(content)` (main.py lines 82-116), parameterised by the
fresh uuid, the compiler outcome and the sampled `now`.  The source text
itself only flows into the external compiler, whose outcome is the
`compile` parameter. -/
def create_program (fsFail : String → Bool) (file_id : String)
    (compile : CompileOutcome) (now : Nat) (st : SvcState) :
    Except (String × SvcState) (CreateResult × SvcState) :=
  let source_path := "cpps/" ++ file_id ++ ".cpp"
  let output_path := "cpps/" ++ file_id
  let fs1 := addFile st.fs source_path
  if compile.returncode ≠ 0 then
    -- `os.remove(source_path)` (line 105) is not wrapped in try/except.
    match osRemove fsFail fs1 source_path with
    | .error _ => .error ("OSError", { st with fs := fs1 })
    | .ok fs2 => .ok (.failure compile.stderr, { st with fs := fs2 })
  else
    let fs2 := addFile fs1 output_path
    let expiration := now + 86400
    let info : FileInfo :=
      { output_path := output_path, source_path := source_path, expiration := expiration }
    -- `cpp_files[file_id] = info` with a freshly generated uuid key.
    let store1 := st.store ++ [(file_id, info)]
    .ok (.success file_id, { store := store1, fs := fs2, diskStore := store1 })

/-- Observable outcome of `subprocess.run([output_path], …, timeout=10)`
(main.py lines 143-149): either `subprocess.TimeoutExpired` or completion
with captured streams and exit status.  `producedGmon` records whether the
(possibly killed) instrumented run left a `gmon.out` in the working
directory. -/
inductive ProcResult where
  | timeout (producedGmon : Bool)
  | completed (stdout stderr : String) (returncode : Int) (producedGmon : Bool)
deriving Repr, DecidableEq

/-- The `gmon.out` side effect of running the profiling-instrumented
artifact. -/
def addGmon (g : Bool) (fs : List String) : List String :=
  if g then addFile fs "gmon.out" else fs

/-- Per-call environment of `_run_program`: the sampled `now`, the artifact
subprocess outcome, gprof's captured stdout, the measured wall-clock
duration, and the external line-based unified-diff primitive
(`difflib.unified_diff`, an out-of-scope collaborator: it takes the two
`splitlines(keepends=True)` line lists and the `fromfile`/`tofile` labels
and yields the diff lines). -/
structure RunEnv where
  now : Nat
  proc : ProcResult
  gprof_stdout : String
  elapsed : Nat
  udiff : List String → List String → String → String → List String

/-- Fields of a `{"success": True, …}` result of `_run_program`
(main.py lines 180-187). -/
structure RunSuccess where
  stdout : String
  stderr : String
  diff : Option String
  run_time : Nat
  profiling_report : String
deriving Repr, DecidableEq

/-- Structured result of `_run_program`: `{"success": False, "error": e}`
(which carries no stdout/stderr/diff fields) or the success record. -/
inductive RunResult where
  | failure (error : String)
  | success (r : RunSuccess)
deriving Repr, DecidableEq

/-- Python `str.splitlines(keepends=True)` on the common line terminators
`\n`, `\r` and `\r\n` (character-list worker). -/
def splitlinesAux : List Char → List Char → List (List Char)
  | [], acc => if acc.isEmpty then [] else [acc.reverse]
  | '\r' :: '\n' :: rest, acc => (acc.reverse ++ ['\r', '\n']) :: splitlinesAux rest []
  | '\r' :: rest, acc => (acc.reverse ++ ['\r']) :: splitlinesAux rest []
  | '\n' :: rest, acc => (acc.reverse ++ ['\n']) :: splitlinesAux rest []
  | c :: rest, acc => splitlinesAux rest (c :: acc)

/-- Python `s.splitlines(keepends=True)`. -/
def splitlines_keepends (s : String) : List String :=
  (splitlinesAux s.data []).map fun l => ⟨l⟩

/-- Python `s.replace("  ", " ")`: left-to-right non-overlapping replacement
of each two-space pair by a single space (character-list worker). -/
def collapseAux : List Char → List Char
  | ' ' :: ' ' :: rest => ' ' :: collapseAux rest
  | c :: rest => c :: collapseAux rest
  | [] => []

/-- Python `s.replace("  ", " ")`. -/
def replaceDoubleSpace (s : String) : String :=
  ⟨collapseAux s.data⟩

/-- Python `s[:n]` on a string (by code points). -/
def takeChars (n : Nat) (s : String) : String :=
  ⟨s.data.take n⟩

/-- `_run_program(file_id, custom_input, expected_output)` (main.py lines
122-187).  `st.diskStore` is what the initial `load_cpp_files()` reads;
`custom_input` is piped to the subprocess, whose outcome is `env.proc`. -/
def run_program (fsFail : String → Bool) (env : RunEnv) (st : SvcState)
    (file_id : String) (custom_input : String) (expected_output : Option String) :
    Except (String × SvcState) (RunResult × SvcState) :=
  let store := st.diskStore
  match storeLookup store file_id with
  | none => .ok (.failure "File ID not found.", { st with store := store })
  | some file_info =>
    -- `datetime.now().isoformat() > file_info["expiration"]`
    if file_info.expiration < env.now then
      -- lazy expiry: del, two os.remove calls NOT wrapped in try/except, save
      let store1 := popId store file_id
      match osRemove fsFail st.fs file_info.source_path with
      | .error _ => .error ("OSError", { st with store := store1 })
      | .ok fs1 =>
        match osRemove fsFail fs1 file_info.output_path with
        | .error _ => .error ("OSError", { st with store := store1, fs := fs1 })
        | .ok fs2 =>
          .ok (.failure "File ID has expired.",
            { store := store1, fs := fs2, diskStore := store1 })
    else
      match env.proc with
      | .timeout g =>
        -- `except subprocess.TimeoutExpired: return {"success": False, …}`
        .ok (.failure "Execution timed out after 10 seconds.",
          { st with store := store, fs := addGmon g st.fs })
      | .completed out err _rc g =>
        let fsRun := addGmon g st.fs
        -- gprof runs (captures env.gprof_stdout), then
        -- `if os.path.exists("gmon.out"): os.remove("gmon.out")` (no except)
        match (if containsPath fsRun "gmon.out"
               then osRemove fsFail fsRun "gmon.out" else .ok fsRun) with
        | .error _ => .error ("OSError", { st with store := store, fs := fsRun })
        | .ok fs1 =>
          let diff_result : Option String :=
            match expected_output with
            | none => none
            | some e =>
              some (String.join
                (env.udiff (splitlines_keepends e) (splitlines_keepends out)
                  "expected_output" "actual_output"))
          let profiling_report :=
            takeChars 500
              (replaceDoubleSpace (replaceDoubleSpace
                (replaceDoubleSpace (replaceDoubleSpace env.gprof_stdout))))
          .ok (.success
            { stdout := out, stderr := err, diff := diff_result,
              run_time := env.elapsed, profiling_report := profiling_report },
            { st with store := store, fs := fs1 })

/-- Combined result of `_create_and_run_program` (main.py lines 193-213):
on build failure the create response itself is returned; on build success a
`{"create_result": …, "run_result": …}` pair. -/
inductive CombinedResult where
  | buildOnly (create : CreateResult)
  | combined (create : CreateResult) (run : RunResult)
deriving Repr, DecidableEq

/-- `_create_and_run_program(content, custom_input, expected_output)`
(main.py lines 193-213). -/
def create_and_run_program (fsFail : String → Bool) (file_id : String)
    (compile : CompileOutcome) (createNow : Nat) (env : RunEnv) (st : SvcState)
    (custom_input : String) (expected_output : Option String) :
    Except (String × SvcState) (CombinedResult × SvcState) :=
  match create_program fsFail file_id compile createNow st with
  | .error e => .error e
  | .ok (.failure err, st1) => .ok (.buildOnly (.failure err), st1)
  | .ok (.success fid, st1) =>
    match run_program fsFail env st1 fid custom_input expected_output with
    | .error e => .error e
    | .ok (rr, st2) => .ok (.combined (.success fid) rr, st2)

/-! ### Helper notions and characterization lemmas for the reaper sweep -/

/-- Popping a list of ids one after the other (proof-side restatement of the
store component of `sweepLoop`). -/
def popIds : Store → List String → Store
  | s, [] => s
  | s, fid :: rest => popIds (popId s fid) rest

/-- The keys of a store, in order. -/
def keys (s : Store) : List String := s.map Prod.fst

theorem storeLookup_none_popId (s : Store) (fid : String)
    (h : storeLookup s fid = none) : popId s fid = s := by
  induction s with
  | nil => rfl
  | cons p rest ih =>
    obtain ⟨k, v⟩ := p
    by_cases hk : k = fid
    · simp [storeLookup, hk] at h
    · simp only [storeLookup, if_neg hk] at h
      simp [popId, hk, ih h]

theorem sweepLoop_fst (fsFail : String → Bool) (l : List String) (s : Store)
    (fs : List String) : (sweepLoop fsFail l s fs).1 = popIds s l := by
  induction l generalizing s fs with
  | nil => rfl
  | cons fid rest ih =>
    cases h : storeLookup s fid with
    | none =>
      simp [sweepLoop, h, ih, popIds, storeLookup_none_popId s fid h]
    | some info =>
      simp [sweepLoop, h, ih, popIds]

theorem mem_popId (s : Store) (fid : String) (p : String × FileInfo) :
    p ∈ popId s fid ↔ p ∈ s ∧ p.1 ≠ fid := by
  obtain ⟨pk, pv⟩ := p
  induction s with
  | nil => simp [popId]
  | cons q rest ih =>
    obtain ⟨k, v⟩ := q
    simp only [popId]
    by_cases hk : k = fid
    · rw [if_pos hk]
      simp only [ih, List.mem_cons, Prod.mk.injEq, ne_eq]
      constructor
      · rintro ⟨hp, hne⟩
        exact ⟨Or.inr hp, hne⟩
      · rintro ⟨⟨rfl, rfl⟩ | hp, hne⟩
        · exact absurd hk hne
        · exact ⟨hp, hne⟩
    · rw [if_neg hk]
      simp only [List.mem_cons, Prod.mk.injEq, ne_eq, ih]
      constructor
      · rintro (⟨rfl, rfl⟩ | ⟨hp, hne⟩)
        · exact ⟨Or.inl ⟨rfl, rfl⟩, hk⟩
        · exact ⟨Or.inr hp, hne⟩
      · rintro ⟨⟨rfl, rfl⟩ | hp, hne⟩
        · exact Or.inl ⟨rfl, rfl⟩
        · exact Or.inr ⟨hp, hne⟩

theorem mem_popIds (s : Store) (l : List String) (p : String × FileInfo) :
    p ∈ popIds s l ↔ p ∈ s ∧ p.1 ∉ l := by
  induction l generalizing s with
  | nil => simp [popIds]
  | cons fid rest ih =>
    simp only [popIds, ih, mem_popId, List.mem_cons, not_or]
    tauto

theorem mem_expiredIds (now : Nat) (s : Store) (k : String) :
    k ∈ expiredIds now s ↔ ∃ v, (k, v) ∈ s ∧ v.expiration < now := by
  induction s with
  | nil => simp [expiredIds]
  | cons q rest ih =>
    obtain ⟨k0, v0⟩ := q
    by_cases he : v0.expiration < now
    · simp only [expiredIds, if_pos he, List.mem_cons, ih, Prod.mk.injEq]
      constructor
      · rintro (rfl | ⟨v, hv, hlt⟩)
        · exact ⟨v0, Or.inl ⟨rfl, rfl⟩, he⟩
        · exact ⟨v, Or.inr hv, hlt⟩
      · rintro ⟨v, ⟨rfl, rfl⟩ | hv, hlt⟩
        · exact Or.inl rfl
        · exact Or.inr ⟨v, hv, hlt⟩
    · simp only [expiredIds, if_neg he, ih, List.mem_cons, Prod.mk.injEq]
      constructor
      · rintro ⟨v, hv, hlt⟩
        exact ⟨v, Or.inr hv, hlt⟩
      · rintro ⟨v, ⟨rfl, rfl⟩ | hv, hlt⟩
        · exact absurd hlt he
        · exact ⟨v, hv, hlt⟩

theorem keys_nodup_val_eq (s : Store) (k : String) (v v' : FileInfo) :
    (keys s).Nodup → (k, v) ∈ s → (k, v') ∈ s → v = v' := by
  induction s with
  | nil => intro _ hv; simp at hv
  | cons q rest ih =>
    obtain ⟨k0, v0⟩ := q
    intro hnd hv hv'
    simp only [keys, List.map_cons, List.nodup_cons] at hnd
    simp only [List.mem_cons, Prod.mk.injEq] at hv hv'
    rcases hv with ⟨rfl, rfl⟩ | hv
    · rcases hv' with ⟨-, rfl⟩ | hv'
      · rfl
      · exact absurd (List.mem_map_of_mem Prod.fst hv') hnd.1
    · rcases hv' with ⟨rfl, rfl⟩ | hv'
      · exact absurd (List.mem_map_of_mem Prod.fst hv) hnd.1
      · exact ih hnd.2 hv hv'

theorem expiredIds_mem_iff (now : Nat) (s : Store) (p : String × FileInfo)
    (hnd : (keys s).Nodup) (hp : p ∈ s) :
    p.1 ∈ expiredIds now s ↔ p.2.expiration < now := by
  constructor
  · intro h
    obtain ⟨v, hv, hlt⟩ := (mem_expiredIds now s p.1).1 h
    have hp' : (p.1, p.2) ∈ s := by rwa [Prod.mk.eta]
    rwa [keys_nodup_val_eq s p.1 v p.2 hnd hv hp'] at hlt
  · intro hlt
    have hp' : (p.1, p.2) ∈ s := by rwa [Prod.mk.eta]
    exact (mem_expiredIds now s p.1).2 ⟨p.2, hp', hlt⟩

/-- The store component of the sweep does not depend on the filesystem or on
which deletions fail. -/
theorem cleanup_fst_eq (fsFail : String → Bool) (now : Nat) (s : Store)
    (fs : List String) :
    (cleanup_expired_files fsFail now s fs).1 = popIds s (expiredIds now s) := by
  simp only [cleanup_expired_files]
  exact sweepLoop_fst fsFail (expiredIds now s) s fs

/-- Exact membership characterization of the post-sweep store (strict `<`). -/
theorem cleanup_store_mem (fsFail : String → Bool) (now : Nat) (s : Store)
    (fs : List String) (hnd : (keys s).Nodup) (p : String × FileInfo) :
    p ∈ (cleanup_expired_files fsFail now s fs).1 ↔
      p ∈ s ∧ ¬ p.2.expiration < now := by
  rw [cleanup_fst_eq, mem_popIds]
  constructor
  · rintro ⟨hp, hnin⟩
    exact ⟨hp, fun hlt => hnin ((expiredIds_mem_iff now s p hnd hp).2 hlt)⟩
  · rintro ⟨hp, hne⟩
    exact ⟨hp, fun hin => hne ((expiredIds_mem_iff now s p hnd hp).1 hin)⟩

/-- `save_cpp_files()` runs at the end of the sweep iff some record was
removed. -/
theorem cleanup_saved_iff (fsFail : String → Bool) (now : Nat) (s : Store)
    (fs : List String) :
    (cleanup_expired_files fsFail now s fs).2.2 = true ↔
      ∃ p ∈ s, p.2.expiration < now := by
  have hflag : (cleanup_expired_files fsFail now s fs).2.2
      = !(expiredIds now s).isEmpty := rfl
  rw [hflag]
  constructor
  · intro h
    cases hl : expiredIds now s with
    | nil => rw [hl] at h; simp at h
    | cons k rest =>
      have hk : k ∈ expiredIds now s := by rw [hl]; exact List.mem_cons_self _ _
      obtain ⟨v, hv, hlt⟩ := (mem_expiredIds now s k).1 hk
      exact ⟨(k, v), hv, hlt⟩
  · rintro ⟨p, hp, hlt⟩
    have hmem : p.1 ∈ expiredIds now s :=
      (mem_expiredIds now s p.1).2 ⟨p.2, by rwa [Prod.mk.eta], hlt⟩
    cases hl : expiredIds now s with
    | nil => rw [hl] at hmem; simp at hmem
    | cons k rest => simp [hl, List.isEmpty]

theorem removePath_subset (fs : List String) (p : String) :
    ∀ q ∈ removePath fs p, q ∈ fs := by
  induction fs with
  | nil => simp [removePath]
  | cons q0 rest ih =>
    intro q hq
    by_cases h0 : q0 = p
    · simp only [removePath, if_pos h0] at hq
      exact List.mem_cons_of_mem q0 hq
    · simp only [removePath, if_neg h0, List.mem_cons] at hq
      rcases hq with rfl | hq
      · exact List.mem_cons_self _ _
      · exact List.mem_cons_of_mem q0 (ih q hq)

theorem osRemove_ok_subset (fsFail : String → Bool) (fs : List String)
    (p : String) (fs' : List String) (h : osRemove fsFail fs p = .ok fs') :
    ∀ q ∈ fs', q ∈ fs := by
  simp only [osRemove] at h
  split at h
  · cases h
    exact removePath_subset fs p
  · cases h

theorem removeBoth_subset (fsFail : String → Bool) (fs : List String)
    (info : FileInfo) : ∀ q ∈ removeBoth fsFail fs info, q ∈ fs := by
  unfold removeBoth
  cases h1 : osRemove fsFail fs info.source_path with
  | error e => intro q hq; exact hq
  | ok fs1 =>
    show ∀ q ∈ (match osRemove fsFail fs1 info.output_path with
      | Except.error _ => fs1
      | Except.ok fs2 => fs2), q ∈ fs
    cases h2 : osRemove fsFail fs1 info.output_path with
    | error e =>
      intro q hq
      exact osRemove_ok_subset fsFail fs info.source_path fs1 h1 q hq
    | ok fs2 =>
      intro q hq
      exact osRemove_ok_subset fsFail fs info.source_path fs1 h1 q
        (osRemove_ok_subset fsFail fs1 info.output_path fs2 h2 q hq)

theorem sweepLoop_snd_subset (fsFail : String → Bool) (l : List String)
    (s : Store) (fs : List String) :
    ∀ q ∈ (sweepLoop fsFail l s fs).2, q ∈ fs := by
  induction l generalizing s fs with
  | nil => simp [sweepLoop]
  | cons fid rest ih =>
    cases h : storeLookup s fid with
    | none =>
      simpa [sweepLoop, h] using ih s fs
    | some info =>
      intro q hq
      simp only [sweepLoop, h] at hq
      exact removeBoth_subset fsFail fs info q
        (ih (popId s fid) (removeBoth fsFail fs info) q hq)

/-- The sweep only ever deletes files: no path appears. -/
theorem cleanup_fs_subset (fsFail : String → Bool) (now : Nat) (s : Store)
    (fs : List String) :
    ∀ q ∈ (cleanup_expired_files fsFail now s fs).2.1, q ∈ fs := by
  simpa [cleanup_expired_files] using
    sweepLoop_snd_subset fsFail (expiredIds now s) s fs

/-! ### Path equations for `run_program` -/

theorem run_program_notFound (fsFail : String → Bool) (env : RunEnv)
    (st : SvcState) (fid inp : String) (exp : Option String)
    (h : storeLookup st.diskStore fid = none) :
    run_program fsFail env st fid inp exp =
      .ok (.failure "File ID not found.", { st with store := st.diskStore }) := by
  simp [run_program, h]

theorem run_program_expired_srcFail (fsFail : String → Bool) (env : RunEnv)
    (st : SvcState) (fid inp : String) (exp : Option String) (info : FileInfo)
    (hl : storeLookup st.diskStore fid = some info)
    (he : info.expiration < env.now)
    (hs : osRemove fsFail st.fs info.source_path = .error ()) :
    run_program fsFail env st fid inp exp =
      .error ("OSError", { st with store := popId st.diskStore fid }) := by
  simp [run_program, hl, he, hs]

theorem run_program_expired_outFail (fsFail : String → Bool) (env : RunEnv)
    (st : SvcState) (fid inp : String) (exp : Option String) (info : FileInfo)
    (fs1 : List String)
    (hl : storeLookup st.diskStore fid = some info)
    (he : info.expiration < env.now)
    (hs : osRemove fsFail st.fs info.source_path = .ok fs1)
    (ho : osRemove fsFail fs1 info.output_path = .error ()) :
    run_program fsFail env st fid inp exp =
      .error ("OSError", { st with store := popId st.diskStore fid, fs := fs1 }) := by
  simp [run_program, hl, he, hs, ho]

theorem run_program_expired_ok (fsFail : String → Bool) (env : RunEnv)
    (st : SvcState) (fid inp : String) (exp : Option String) (info : FileInfo)
    (fs1 fs2 : List String)
    (hl : storeLookup st.diskStore fid = some info)
    (he : info.expiration < env.now)
    (hs : osRemove fsFail st.fs info.source_path = .ok fs1)
    (ho : osRemove fsFail fs1 info.output_path = .ok fs2) :
    run_program fsFail env st fid inp exp =
      .ok (.failure "File ID has expired.",
        { store := popId st.diskStore fid, fs := fs2,
          diskStore := popId st.diskStore fid }) := by
  simp [run_program, hl, he, hs, ho]

theorem run_program_timeout_eq (fsFail : String → Bool) (env : RunEnv)
    (st : SvcState) (fid inp : String) (exp : Option String) (info : FileInfo)
    (g : Bool)
    (hl : storeLookup st.diskStore fid = some info)
    (he : ¬ info.expiration < env.now)
    (hp : env.proc = .timeout g) :
    run_program fsFail env st fid inp exp =
      .ok (.failure "Execution timed out after 10 seconds.",
        { st with store := st.diskStore, fs := addGmon g st.fs }) := by
  simp [run_program, hl, he, hp]

theorem run_program_completed_eq (fsFail : String → Bool) (env : RunEnv)
    (st : SvcState) (fid inp : String) (exp : Option String) (info : FileInfo)
    (out err : String) (rc : Int) (g : Bool)
    (hl : storeLookup st.diskStore fid = some info)
    (he : ¬ info.expiration < env.now)
    (hp : env.proc = .completed out err rc g)
    (hg : fsFail "gmon.out" = false) :
    run_program fsFail env st fid inp exp =
      .ok (.success
        { stdout := out, stderr := err,
          diff := (match exp with
            | none => none
            | some e => some (String.join (env.udiff (splitlines_keepends e)
                (splitlines_keepends out) "expected_output" "actual_output"))),
          run_time := env.elapsed,
          profiling_report := takeChars 500 (replaceDoubleSpace (replaceDoubleSpace
            (replaceDoubleSpace (replaceDoubleSpace env.gprof_stdout)))) },
        { st with
            store := st.diskStore,
            fs := if containsPath (addGmon g st.fs) "gmon.out" = true
                  then removePath (addGmon g st.fs) "gmon.out"
                  else addGmon g st.fs }) := by
  by_cases hc : containsPath (addGmon g st.fs) "gmon.out" = true
  · simp [run_program, hl, he, hp, hc, osRemove, hg]
  · simp [run_program, hl, he, hp, hc]

theorem run_program_gmonFail_eq (fsFail : String → Bool) (env : RunEnv)
    (st : SvcState) (fid inp : String) (exp : Option String) (info : FileInfo)
    (out err : String) (rc : Int) (g : Bool)
    (hl : storeLookup st.diskStore fid = some info)
    (he : ¬ info.expiration < env.now)
    (hp : env.proc = .completed out err rc g)
    (hc : containsPath (addGmon g st.fs) "gmon.out" = true)
    (hg : fsFail "gmon.out" = true) :
    run_program fsFail env st fid inp exp =
      .error ("OSError", { st with store := st.diskStore, fs := addGmon g st.fs }) := by
  simp [run_program, hl, he, hp, hc, osRemove, hg]

theorem containsPath_iff_mem (fs : List String) (p : String) :
    containsPath fs p = true ↔ p ∈ fs := by
  induction fs with
  | nil => simp [containsPath]
  | cons q rest ih =>
    by_cases hq : q = p
    · subst hq
      simp [containsPath]
    · simp only [containsPath, if_neg hq, ih, List.mem_cons]
      constructor
      · exact fun h => Or.inr h
      · rintro (rfl | h)
        · exact absurd rfl hq
        · exact h

theorem mem_addFile (fs : List String) (p q : String) (h : q ∈ fs) :
    q ∈ addFile fs p := by
  unfold addFile
  split
  · exact h
  · exact List.mem_cons_of_mem p h

theorem mem_addFile_self (fs : List String) (p : String) : p ∈ addFile fs p := by
  unfold addFile
  split
  · next h => exact (containsPath_iff_mem fs p).1 h
  · exact List.mem_cons_self p fs

theorem mem_addGmon (g : Bool) (fs : List String) (q : String) (h : q ∈ fs) :
    q ∈ addGmon g fs := by
  unfold addGmon
  split
  · exact mem_addFile fs "gmon.out" q h
  · exact h

theorem containsPath_addGmon_self (fs : List String) :
    containsPath (addGmon true fs) "gmon.out" = true := by
  simp only [addGmon, if_pos rfl]
  exact (containsPath_iff_mem _ _).2 (mem_addFile_self fs "gmon.out")

theorem addFile_nodup (fs : List String) (p : String) (h : fs.Nodup) :
    (addFile fs p).Nodup := by
  unfold addFile
  split
  · exact h
  · next hc =>
    refine List.nodup_cons.2 ⟨fun hm => ?_, h⟩
    exact absurd ((containsPath_iff_mem fs p).2 hm) (by simp [hc])

theorem not_mem_removePath_self (fs : List String) (p : String) (h : fs.Nodup) :
    p ∉ removePath fs p := by
  induction fs with
  | nil => simp [removePath]
  | cons q rest ih =>
    rw [List.nodup_cons] at h
    by_cases hq : q = p
    · subst hq
      simp only [removePath, if_pos rfl]
      exact h.1
    · simp only [removePath, if_neg hq, List.mem_cons]
      rintro (rfl | hm)
      · exact hq rfl
      · exact ih h.2 hm

theorem storeLookup_append_fresh (s : Store) (fid : String) (v : FileInfo)
    (h : storeLookup s fid = none) :
    storeLookup (s ++ [(fid, v)]) fid = some v := by
  induction s with
  | nil => simp [storeLookup]
  | cons q rest ih =>
    obtain ⟨k, w⟩ := q
    by_cases hk : k = fid
    · simp [storeLookup, hk] at h
    · simp only [storeLookup, if_neg hk] at h
      simp only [List.cons_append, storeLookup, if_neg hk]
      exact ih h

/-- The output path `cpps/<id>` never equals the source path `cpps/<id>.cpp`. -/
theorem output_path_ne_source_path (fid : String) :
    ("cpps/" ++ fid : String) ≠ "cpps/" ++ fid ++ ".cpp" := by
  intro h
  have hlen := congrArg String.length h
  simp only [String.length_append] at hlen
  have h4 : (".cpp" : String).length = 4 := rfl
  omega

/-! ### Shape lemmas for `create_program` and exhaustive outcome analysis -/

/-- The record inserted for a fresh id compiled at time `now`. -/
def mkInfo (fid : String) (now : Nat) : FileInfo :=
  { output_path := "cpps/" ++ fid, source_path := "cpps/" ++ fid ++ ".cpp",
    expiration := now + 86400 }

theorem create_program_rc_ne (fsFail : String → Bool) (fid : String)
    (compile : CompileOutcome) (now : Nat) (st : SvcState)
    (hrc : compile.returncode ≠ 0) :
    create_program fsFail fid compile now st =
      (match osRemove fsFail (addFile st.fs ("cpps/" ++ fid ++ ".cpp"))
          ("cpps/" ++ fid ++ ".cpp") with
       | .error _ => .error ("OSError",
           { st with fs := addFile st.fs ("cpps/" ++ fid ++ ".cpp") })
       | .ok fs2 => .ok (.failure compile.stderr, { st with fs := fs2 })) := by
  simp [create_program, hrc]

theorem create_program_rc_zero (fsFail : String → Bool) (fid : String)
    (compile : CompileOutcome) (now : Nat) (st : SvcState)
    (hrc : compile.returncode = 0) :
    create_program fsFail fid compile now st =
      .ok (.success fid,
        { store := st.store ++ [(fid, mkInfo fid now)],
          fs := addFile (addFile st.fs ("cpps/" ++ fid ++ ".cpp")) ("cpps/" ++ fid),
          diskStore := st.store ++ [(fid, mkInfo fid now)] }) := by
  simp [create_program, hrc, mkInfo]

/-- Exhaustive analysis of the structured (non-raising) outcomes of
`run_program`. -/
theorem run_program_ok_cases (fsFail : String → Bool) (env : RunEnv)
    (st : SvcState) (fid inp : String) (exp : Option String)
    (res : RunResult) (st' : SvcState)
    (h : run_program fsFail env st fid inp exp = .ok (res, st')) :
    (res = .failure "File ID not found." ∧ st' = { st with store := st.diskStore })
    ∨ (∃ fs2, res = .failure "File ID has expired."
        ∧ st' = { store := popId st.diskStore fid, fs := fs2,
                  diskStore := popId st.diskStore fid })
    ∨ (∃ g, res = .failure "Execution timed out after 10 seconds."
        ∧ st' = { st with store := st.diskStore, fs := addGmon g st.fs })
    ∨ (∃ r fs1, res = .success r ∧ st' = { st with store := st.diskStore, fs := fs1 }) := by
  cases hl : storeLookup st.diskStore fid with
  | none =>
    rw [run_program_notFound fsFail env st fid inp exp hl] at h
    simp only [Except.ok.injEq, Prod.mk.injEq] at h
    exact Or.inl ⟨h.1.symm, h.2.symm⟩
  | some info =>
    by_cases he : info.expiration < env.now
    · cases hs : osRemove fsFail st.fs info.source_path with
      | error u =>
        cases u
        rw [run_program_expired_srcFail fsFail env st fid inp exp info hl he hs] at h
        cases h
      | ok fs1 =>
        cases ho : osRemove fsFail fs1 info.output_path with
        | error u =>
          cases u
          rw [run_program_expired_outFail fsFail env st fid inp exp info fs1 hl he hs ho] at h
          cases h
        | ok fs2 =>
          rw [run_program_expired_ok fsFail env st fid inp exp info fs1 fs2 hl he hs ho] at h
          simp only [Except.ok.injEq, Prod.mk.injEq] at h
          exact Or.inr (Or.inl ⟨fs2, h.1.symm, h.2.symm⟩)
    · cases hproc : env.proc with
      | timeout g =>
        rw [run_program_timeout_eq fsFail env st fid inp exp info g hl he hproc] at h
        simp only [Except.ok.injEq, Prod.mk.injEq] at h
        exact Or.inr (Or.inr (Or.inl ⟨g, h.1.symm, h.2.symm⟩))
      | completed out err rc g =>
        by_cases hc : containsPath (addGmon g st.fs) "gmon.out" = true
        · cases hg : fsFail "gmon.out" with
          | true =>
            rw [run_program_gmonFail_eq fsFail env st fid inp exp info out err rc g
              hl he hproc hc hg] at h
            cases h
          | false =>
            rw [run_program_completed_eq fsFail env st fid inp exp info out err rc g
              hl he hproc hg] at h
            simp only [Except.ok.injEq, Prod.mk.injEq] at h
            exact Or.inr (Or.inr (Or.inr ⟨_, _, h.1.symm, h.2.symm⟩))
        · -- gmon.out not present: the cleanup is skipped, no removal can fail
          simp only [run_program, hl, if_neg he, hproc, if_neg hc,
            Except.ok.injEq, Prod.mk.injEq] at h
          exact Or.inr (Or.inr (Or.inr ⟨_, _, h.1.symm, h.2.symm⟩))

/-- The only structured failures `run_program` can return. -/
theorem run_failure_taxonomy (fsFail : String → Bool) (env : RunEnv)
    (st : SvcState) (fid inp : String) (exp : Option String)
    (e : String) (st' : SvcState)
    (h : run_program fsFail env st fid inp exp = .ok (.failure e, st')) :
    e = "File ID not found." ∨ e = "File ID has expired."
      ∨ e = "Execution timed out after 10 seconds." := by
  rcases run_program_ok_cases fsFail env st fid inp exp (.failure e) st' h with
    ⟨h1, -⟩ | ⟨fs2, h1, -⟩ | ⟨g, h1, -⟩ | ⟨r, fs1, h1, -⟩
  · exact Or.inl (by injection h1)
  · exact Or.inr (Or.inl (by injection h1))
  · exact Or.inr (Or.inr (by injection h1))
  · cases h1

/-- A successful `run_program` leaves the in-memory store exactly as loaded
and never writes the store file. -/
theorem run_success_state (fsFail : String → Bool) (env : RunEnv)
    (st : SvcState) (fid inp : String) (exp : Option String)
    (r : RunSuccess) (st' : SvcState)
    (h : run_program fsFail env st fid inp exp = .ok (.success r, st')) :
    st'.store = st.diskStore ∧ st'.diskStore = st.diskStore := by
  rcases run_program_ok_cases fsFail env st fid inp exp (.success r) st' h with
    ⟨h1, -⟩ | ⟨fs2, h1, -⟩ | ⟨g, h1, -⟩ | ⟨r', fs1, h1, h2⟩
  · cases h1
  · cases h1
  · cases h1
  · subst h2
    exact ⟨rfl, rfl⟩

/-- The service state an outcome of `run_program` leaves behind, whether it
returns normally or raises. -/
def outState : Except (String × SvcState) (RunResult × SvcState) → SvcState
  | .error (_, st) => st
  | .ok (_, st) => st

/-- The state after a successful `create_program` for a fresh id. -/
def createdState (fid : String) (now : Nat) (st : SvcState) : SvcState :=
  { store := st.store ++ [(fid, mkInfo fid now)],
    fs := addFile (addFile st.fs ("cpps/" ++ fid ++ ".cpp")) ("cpps/" ++ fid),
    diskStore := st.store ++ [(fid, mkInfo fid now)] }

theorem create_program_rc_zero_eq (fsFail : String → Bool) (fid : String)
    (compile : CompileOutcome) (now : Nat) (st : SvcState)
    (hrc : compile.returncode = 0) :
    create_program fsFail fid compile now st =
      .ok (.success fid, createdState fid now st) := by
  rw [create_program_rc_zero fsFail fid compile now st hrc]
  rfl

theorem mem_addFile_cases (fs : List String) (p q : String)
    (h : q ∈ addFile fs p) : q ∈ fs ∨ q = p := by
  unfold addFile at h
  split at h
  · exact Or.inl h
  · rcases List.mem_cons.1 h with rfl | h
    · exact Or.inr rfl
    · exact Or.inl h

/-! ### Concrete fixtures used by witnesses and counterexamples -/

/-- Fixture: a filesystem where no deletion ever fails. -/
def noFail : String → Bool := fun _ => false

/-- Fixture: deleting `cpps/a.cpp` raises `OSError`; everything else works. -/
def failACpp : String → Bool := fun p => p == "cpps/a.cpp"

/-- Fixture record, already expired at time 100. -/
def infoA : FileInfo :=
  { output_path := "cpps/a", source_path := "cpps/a.cpp", expiration := 10 }

/-- Fixture record, still fresh at time 100. -/
def infoB : FileInfo :=
  { output_path := "cpps/b", source_path := "cpps/b.cpp", expiration := 1000 }

/-- Fixture filesystem holding the backing files of both records. -/
def fsAB : List String := ["cpps/a", "cpps/a.cpp", "cpps/b", "cpps/b.cpp"]

/-- Fixture store holding one expired and one fresh record. -/
def storeAB : Store := [("a", infoA), ("b", infoB)]

/-- Fixture state whose disk copy matches the in-memory store. -/
def stAB : SvcState := { store := storeAB, fs := fsAB, diskStore := storeAB }

/-- Fixture state whose disk copy holds only the expired record. -/
def stA : SvcState := { store := storeAB, fs := fsAB, diskStore := [("a", infoA)] }

/-- Fixture environment: time 100, subprocess completes normally. -/
def envRunB : RunEnv :=
  { now := 100
    proc := .completed "hi" "" 0 false
    gprof_stdout := ""
    elapsed := 1
    udiff := fun _ _ _ _ => [] }

/-- Fixture environment: time 100, subprocess hits the 10-second timeout
leaving a `gmon.out` behind. -/
def envTimeout : RunEnv :=
  { now := 100
    proc := .timeout true
    gprof_stdout := "profile data"
    elapsed := 10
    udiff := fun _ _ _ _ => [] }

/-! ### The claims -/

/-- C1 counterexample: a `run_program` call on the fresh id "b" proceeds
normally and succeeds while the expired record "a" (expiration 10 < now
100) stays in the store afterwards: no Reaper sweep happens at the start of
the call, so an expired record does remain after a run_program call. -/
theorem run_program_no_sweep_counterexample :
    run_program noFail envRunB stAB "b" "" none =
      .ok (.success { stdout := "hi", stderr := "", diff := none, run_time := 1,
                      profiling_report := "" },
           { store := storeAB, fs := fsAB, diskStore := storeAB })
    ∧ ("a", infoA) ∈ storeAB ∧ infoA.expiration < envRunB.now :=
  ⟨rfl, List.mem_cons_self _ _, by decide⟩

/-- C1 (amended): the Reaper sweep runs at process startup (store load, then
sweep): afterwards no record with `expiration < now` remains.  `run_program`
itself performs no sweep: it reloads the store and lazily checks only the
requested id, so a call on a present, non-expired id leaves the in-memory
store exactly as loaded and never writes the store file, whatever the
subprocess does — expired records other than the requested one survive. -/
theorem reaper_startup_and_lazy_run_amended
    (fsFail : String → Bool) (now : Nat) (disk : Option (Option Store))
    (fs : List String) (hnd : (keys (load_cpp_files disk)).Nodup) :
    (∀ p ∈ (startup fsFail now disk fs).1, ¬ p.2.expiration < now)
    ∧ ∀ (env : RunEnv) (st : SvcState) (fid inp : String) (exp : Option String)
        (info : FileInfo),
        storeLookup st.diskStore fid = some info →
        ¬ info.expiration < env.now →
        (outState (run_program fsFail env st fid inp exp)).store = st.diskStore
          ∧ (outState (run_program fsFail env st fid inp exp)).diskStore = st.diskStore := by
  constructor
  · intro p hp
    exact ((cleanup_store_mem fsFail now (load_cpp_files disk) fs hnd p).1 hp).2
  · intro env st fid inp exp info hl he
    cases hproc : env.proc with
    | timeout g =>
      rw [run_program_timeout_eq fsFail env st fid inp exp info g hl he hproc]
      exact ⟨rfl, rfl⟩
    | completed out err rc g =>
      by_cases hc : containsPath (addGmon g st.fs) "gmon.out" = true
      · cases hg : fsFail "gmon.out" with
        | true =>
          rw [run_program_gmonFail_eq fsFail env st fid inp exp info out err rc g
            hl he hproc hc hg]
          exact ⟨rfl, rfl⟩
        | false =>
          rw [run_program_completed_eq fsFail env st fid inp exp info out err rc g
            hl he hproc hg]
          exact ⟨rfl, rfl⟩
      · refine ⟨?_, ?_⟩ <;>
          simp [run_program, hl, if_neg he, hproc, if_neg hc, outState]

/-- C1 witness: the amended statement at the concrete startup disk content
`storeAB` and sweep time 100. -/
theorem reaper_startup_and_lazy_run_amended_witness :
    (keys (load_cpp_files (some (some storeAB)))).Nodup
    ∧ ((∀ p ∈ (startup noFail 100 (some (some storeAB)) fsAB).1, ¬ p.2.expiration < 100)
      ∧ ∀ (env : RunEnv) (st : SvcState) (fid inp : String) (exp : Option String)
          (info : FileInfo),
          storeLookup st.diskStore fid = some info →
          ¬ info.expiration < env.now →
          (outState (run_program noFail env st fid inp exp)).store = st.diskStore
            ∧ (outState (run_program noFail env st fid inp exp)).diskStore = st.diskStore) :=
  ⟨by decide, reaper_startup_and_lazy_run_amended noFail 100 (some (some storeAB)) fsAB
    (by decide)⟩

/-- C2 counterexample: a `run_program` call on the expired id "a" whose
source-file deletion fails does NOT return the structured expired failure:
the `OSError` propagates out of the call, the record is removed from the
in-memory store, and the store is never persisted (the disk copy still
holds the record). -/
theorem lazy_expiry_deletion_failure_counterexample :
    run_program failACpp envRunB stA "a" "" none =
      .error ("OSError", { store := [], fs := fsAB, diskStore := [("a", infoA)] })
    ∧ infoA.expiration < envRunB.now
    ∧ failACpp infoA.source_path = true :=
  ⟨rfl, by decide, rfl⟩

/-- C2 (amended): deletion failures are swallowed only in the Reaper sweep,
whose surviving store and save decision do not depend on which deletions
fail; in `run_program`'s lazy-expiry path a failing source-file deletion
propagates as an exception — the record is removed from the in-memory store
but the store is not persisted and no structured result is returned — and a
failing `gmon.out` removal on the non-timeout path likewise propagates (the
deletion is only guarded by an existence check). -/
theorem cleanup_failure_policy_amended
    (fsFail fsFail' : String → Bool) (now : Nat) (s : Store)
    (fs fs' : List String) (env : RunEnv) (st : SvcState) (fid inp : String)
    (exp : Option String) (info : FileInfo)
    (hl : storeLookup st.diskStore fid = some info) :
    ((cleanup_expired_files fsFail now s fs).1 = (cleanup_expired_files fsFail' now s fs').1
      ∧ (cleanup_expired_files fsFail now s fs).2.2
        = (cleanup_expired_files fsFail' now s fs').2.2)
    ∧ (info.expiration < env.now →
        osRemove fsFail st.fs info.source_path = .error () →
        run_program fsFail env st fid inp exp =
          .error ("OSError", { st with store := popId st.diskStore fid }))
    ∧ (∀ out err rc g, ¬ info.expiration < env.now →
        env.proc = .completed out err rc g →
        containsPath (addGmon g st.fs) "gmon.out" = true →
        fsFail "gmon.out" = true →
        run_program fsFail env st fid inp exp =
          .error ("OSError", { st with store := st.diskStore, fs := addGmon g st.fs })) := by
  refine ⟨⟨?_, ?_⟩, ?_, ?_⟩
  · rw [cleanup_fst_eq, cleanup_fst_eq]
  · rfl
  · intro he hs
    exact run_program_expired_srcFail fsFail env st fid inp exp info hl he hs
  · intro out err rc g he hp hc hg
    exact run_program_gmonFail_eq fsFail env st fid inp exp info out err rc g hl he hp hc hg

/-- C2 witness: the amended statement at the concrete state `stA` with the
deletion of `cpps/a.cpp` failing. -/
theorem cleanup_failure_policy_amended_witness :
    storeLookup stA.diskStore "a" = some infoA
    ∧ (((cleanup_expired_files failACpp 100 storeAB fsAB).1
          = (cleanup_expired_files noFail 100 storeAB []).1
        ∧ (cleanup_expired_files failACpp 100 storeAB fsAB).2.2
          = (cleanup_expired_files noFail 100 storeAB []).2.2)
      ∧ (infoA.expiration < envRunB.now →
          osRemove failACpp stA.fs infoA.source_path = .error () →
          run_program failACpp envRunB stA "a" "" none =
            .error ("OSError", { stA with store := popId stA.diskStore "a" }))
      ∧ (∀ out err rc g, ¬ infoA.expiration < envRunB.now →
          envRunB.proc = .completed out err rc g →
          containsPath (addGmon g stA.fs) "gmon.out" = true →
          failACpp "gmon.out" = true →
          run_program failACpp envRunB stA "a" "" none =
            .error ("OSError", { stA with store := stA.diskStore, fs := addGmon g stA.fs }))) :=
  ⟨by decide, cleanup_failure_policy_amended failACpp noFail 100 storeAB fsAB []
    envRunB stA "a" "" none infoA (by decide)⟩

/-- C3 counterexample: a record whose expiration equals `now` (so
`expiresAt <= now` holds) is NOT removed by the sweep, its backing files
stay, and no save happens — the code removes only strictly smaller
expirations. -/
theorem sweep_boundary_counterexample :
    cleanup_expired_files noFail 5
        [("a", { output_path := "cpps/a", source_path := "cpps/a.cpp", expiration := 5 })]
        ["cpps/a", "cpps/a.cpp"]
      = ([("a", { output_path := "cpps/a", source_path := "cpps/a.cpp", expiration := 5 })],
         ["cpps/a", "cpps/a.cpp"], false) := rfl

/-- C3 (amended): `sweep(now)` removes from the store exactly the records
with `expiresAt < now` (strict — one equal to `now` is untouched), whatever
deletions fail; the store is persisted once at the end iff at least one
record was removed; and the filesystem only loses paths. -/
theorem sweep_strict_expiry_amended
    (fsFail : String → Bool) (now : Nat) (s : Store) (fs : List String)
    (hnd : (keys s).Nodup) :
    (∀ p : String × FileInfo,
        p ∈ (cleanup_expired_files fsFail now s fs).1 ↔ p ∈ s ∧ ¬ p.2.expiration < now)
    ∧ ((cleanup_expired_files fsFail now s fs).2.2 = true ↔ ∃ p ∈ s, p.2.expiration < now)
    ∧ (∀ q ∈ (cleanup_expired_files fsFail now s fs).2.1, q ∈ fs) :=
  ⟨cleanup_store_mem fsFail now s fs hnd, cleanup_saved_iff fsFail now s fs,
    cleanup_fs_subset fsFail now s fs⟩

/-- C3 witness: the amended statement for the concrete store `storeAB` at
time 100 (where exactly the record "a" is expired). -/
theorem sweep_strict_expiry_amended_witness :
    (keys storeAB).Nodup
    ∧ ((∀ p : String × FileInfo,
          p ∈ (cleanup_expired_files noFail 100 storeAB fsAB).1
            ↔ p ∈ storeAB ∧ ¬ p.2.expiration < 100)
      ∧ ((cleanup_expired_files noFail 100 storeAB fsAB).2.2 = true
          ↔ ∃ p ∈ storeAB, p.2.expiration < 100)
      ∧ (∀ q ∈ (cleanup_expired_files noFail 100 storeAB fsAB).2.1, q ∈ fsAB)) :=
  ⟨by decide, sweep_strict_expiry_amended noFail 100 storeAB fsAB (by decide)⟩

/-- C4: on a present, non-expired id whose subprocess hits the 10-second
timeout, `run_program` returns exactly the distinct timeout failure — a
result carrying no stdout field at all — the record is still mapped in the
resulting store, the store file is untouched, and both backing files remain
present, so the artifact stays runnable. -/
theorem run_timeout_distinct_failure
    (fsFail : String → Bool) (env : RunEnv) (st : SvcState) (fid inp : String)
    (exp : Option String) (info : FileInfo) (g : Bool)
    (hl : storeLookup st.diskStore fid = some info)
    (he : ¬ info.expiration < env.now)
    (hp : env.proc = .timeout g) :
    run_program fsFail env st fid inp exp =
      .ok (.failure "Execution timed out after 10 seconds.",
        { st with store := st.diskStore, fs := addGmon g st.fs })
    ∧ storeLookup
        ({ st with store := st.diskStore, fs := addGmon g st.fs } : SvcState).store
        fid = some info
    ∧ ({ st with store := st.diskStore, fs := addGmon g st.fs } : SvcState).diskStore
        = st.diskStore
    ∧ (info.source_path ∈ st.fs → info.source_path ∈ addGmon g st.fs)
    ∧ (info.output_path ∈ st.fs → info.output_path ∈ addGmon g st.fs) :=
  ⟨run_program_timeout_eq fsFail env st fid inp exp info g hl he hp, hl, rfl,
    mem_addGmon g st.fs info.source_path, mem_addGmon g st.fs info.output_path⟩

/-- C4 witness: the timeout statement at the concrete fresh record "b". -/
theorem run_timeout_distinct_failure_witness :
    run_program noFail envTimeout stAB "b" "" none =
      .ok (.failure "Execution timed out after 10 seconds.",
        { stAB with store := stAB.diskStore, fs := addGmon true stAB.fs })
    ∧ storeLookup
        ({ stAB with store := stAB.diskStore, fs := addGmon true stAB.fs } : SvcState).store
        "b" = some infoB
    ∧ ({ stAB with store := stAB.diskStore, fs := addGmon true stAB.fs } : SvcState).diskStore
        = stAB.diskStore
    ∧ (infoB.source_path ∈ stAB.fs → infoB.source_path ∈ addGmon true stAB.fs)
    ∧ (infoB.output_path ∈ stAB.fs → infoB.output_path ∈ addGmon true stAB.fs) :=
  run_timeout_distinct_failure noFail envTimeout stAB "b" "" none infoB true
    (by decide) (by decide) rfl

/-- C5: a run on a present, non-expired id whose subprocess completes
within the timeout returns a success result whatever the exit status,
carrying the captured stdout and stderr unmodified; and every structured
failure any `run_program` call can return is one of not-found, expired and
timeout. -/
theorem run_completed_success_taxonomy
    (fsFail : String → Bool) (env : RunEnv) (st : SvcState) (fid inp : String)
    (exp : Option String) (info : FileInfo) (out err : String) (rc : Int) (g : Bool)
    (hl : storeLookup st.diskStore fid = some info)
    (he : ¬ info.expiration < env.now)
    (hp : env.proc = .completed out err rc g)
    (hg : fsFail "gmon.out" = false) :
    (∃ d rep st', run_program fsFail env st fid inp exp =
        .ok (.success { stdout := out, stderr := err, diff := d,
                        run_time := env.elapsed, profiling_report := rep }, st'))
    ∧ ∀ (fsF2 : String → Bool) (env2 : RunEnv) (st2 : SvcState) (fid2 inp2 : String)
        (exp2 : Option String) (e : String) (st2' : SvcState),
        run_program fsF2 env2 st2 fid2 inp2 exp2 = .ok (.failure e, st2') →
        e = "File ID not found." ∨ e = "File ID has expired."
          ∨ e = "Execution timed out after 10 seconds." := by
  constructor
  · exact ⟨_, _, _,
      run_program_completed_eq fsFail env st fid inp exp info out err rc g hl he hp hg⟩
  · intro fsF2 env2 st2 fid2 inp2 exp2 e st2' h
    exact run_failure_taxonomy fsF2 env2 st2 fid2 inp2 exp2 e st2' h

/-- C5 witness: the success statement at the concrete record "b" with a
crashing exit status 139, still reported as success. -/
theorem run_completed_success_taxonomy_witness :
    (∃ d rep st', run_program noFail
        { envRunB with proc := .completed "hi" "boom" 139 false } stAB "b" "" none =
        .ok (.success { stdout := "hi", stderr := "boom", diff := d,
                        run_time := 1, profiling_report := rep }, st'))
    ∧ ∀ (fsF2 : String → Bool) (env2 : RunEnv) (st2 : SvcState) (fid2 inp2 : String)
        (exp2 : Option String) (e : String) (st2' : SvcState),
        run_program fsF2 env2 st2 fid2 inp2 exp2 = .ok (.failure e, st2') →
        e = "File ID not found." ∨ e = "File ID has expired."
          ∨ e = "Execution timed out after 10 seconds." :=
  run_completed_success_taxonomy noFail
    { envRunB with proc := .completed "hi" "boom" 139 false } stAB "b" "" none
    infoB "hi" "boom" 139 false (by decide) (by decide) rfl rfl

/-- C10: the timeout branch performs no cleanup at all: the outcome is
independent of the profiler's captured output (gprof is never consulted),
the result is only the timeout error, the in-memory store stays exactly as
loaded, the store file is not written, and a `gmon.out` left behind by the
killed run is still present afterwards. -/
theorem run_timeout_frame_effects
    (fsFail : String → Bool) (env : RunEnv) (st : SvcState) (fid inp : String)
    (exp : Option String) (info : FileInfo) (g : Bool)
    (hl : storeLookup st.diskStore fid = some info)
    (he : ¬ info.expiration < env.now)
    (hp : env.proc = .timeout g) :
    (∀ gs : String, run_program fsFail { env with gprof_stdout := gs } st fid inp exp
        = run_program fsFail env st fid inp exp)
    ∧ run_program fsFail env st fid inp exp =
        .ok (.failure "Execution timed out after 10 seconds.",
          { st with store := st.diskStore, fs := addGmon g st.fs })
    ∧ (g = true → containsPath (addGmon g st.fs) "gmon.out" = true) := by
  have base := run_program_timeout_eq fsFail env st fid inp exp info g hl he hp
  refine ⟨?_, base, ?_⟩
  · intro gs
    rw [run_program_timeout_eq fsFail { env with gprof_stdout := gs } st fid inp exp
      info g hl he hp, base]
  · rintro rfl
    exact containsPath_addGmon_self st.fs

/-- C10 witness: the frame statement at the concrete fresh record "b" with
`gmon.out` produced by the killed run. -/
theorem run_timeout_frame_effects_witness :
    (∀ gs : String, run_program noFail { envTimeout with gprof_stdout := gs } stAB "b" "" none
        = run_program noFail envTimeout stAB "b" "" none)
    ∧ run_program noFail envTimeout stAB "b" "" none =
        .ok (.failure "Execution timed out after 10 seconds.",
          { stAB with store := stAB.diskStore, fs := addGmon true stAB.fs })
    ∧ (true = true → containsPath (addGmon true stAB.fs) "gmon.out" = true) :=
  run_timeout_frame_effects noFail envTimeout stAB "b" "" none infoB true
    (by decide) (by decide) rfl

/-- C6: when the external compiler exits nonzero, `create_program` returns
failure carrying the compiler's stderr verbatim, deletes the attempt's
source file, leaves no output artifact on the filesystem, and neither
mutates the store nor writes the store file (both kept by the `with`
update in the result state). -/
theorem create_program_compile_failure
    (fsFail : String → Bool) (fid : String) (compile : CompileOutcome)
    (now : Nat) (st : SvcState)
    (hrc : compile.returncode ≠ 0)
    (hnd : st.fs.Nodup)
    (hsf : fsFail ("cpps/" ++ fid ++ ".cpp") = false)
    (hout : ("cpps/" ++ fid) ∉ st.fs) :
    create_program fsFail fid compile now st =
      .ok (.failure compile.stderr,
        { st with fs := (removePath (addFile st.fs ("cpps/" ++ fid ++ ".cpp"))
              ("cpps/" ++ fid ++ ".cpp")) })
    ∧ ("cpps/" ++ fid ++ ".cpp")
        ∉ removePath (addFile st.fs ("cpps/" ++ fid ++ ".cpp")) ("cpps/" ++ fid ++ ".cpp")
    ∧ ("cpps/" ++ fid)
        ∉ removePath (addFile st.fs ("cpps/" ++ fid ++ ".cpp")) ("cpps/" ++ fid ++ ".cpp") := by
  have hos : osRemove fsFail (addFile st.fs ("cpps/" ++ fid ++ ".cpp"))
      ("cpps/" ++ fid ++ ".cpp")
      = .ok (removePath (addFile st.fs ("cpps/" ++ fid ++ ".cpp"))
          ("cpps/" ++ fid ++ ".cpp")) := by
    unfold osRemove
    rw [(containsPath_iff_mem _ _).2 (mem_addFile_self st.fs _), hsf]
    rfl
  refine ⟨?_, ?_, ?_⟩
  · rw [create_program_rc_ne fsFail fid compile now st hrc, hos]
  · exact not_mem_removePath_self _ _ (addFile_nodup st.fs _ hnd)
  · intro hmem
    have h1 := removePath_subset (addFile st.fs ("cpps/" ++ fid ++ ".cpp"))
      ("cpps/" ++ fid ++ ".cpp") _ hmem
    rcases mem_addFile_cases st.fs _ _ h1 with h2 | h2
    · exact hout h2
    · exact output_path_ne_source_path fid h2

/-- C6 witness: a failing compile (exit 1, diagnostics "boom") of attempt
"z" against the concrete state `stAB`. -/
theorem create_program_compile_failure_witness :
    create_program noFail "z" { returncode := 1, stdout := "", stderr := "boom" } 50 stAB =
      .ok (.failure "boom",
        { stAB with fs := (removePath (addFile stAB.fs ("cpps/" ++ "z" ++ ".cpp"))
              ("cpps/" ++ "z" ++ ".cpp")) })
    ∧ ("cpps/" ++ "z" ++ ".cpp")
        ∉ removePath (addFile stAB.fs ("cpps/" ++ "z" ++ ".cpp")) ("cpps/" ++ "z" ++ ".cpp")
    ∧ ("cpps/" ++ "z")
        ∉ removePath (addFile stAB.fs ("cpps/" ++ "z" ++ ".cpp")) ("cpps/" ++ "z" ++ ".cpp") :=
  create_program_compile_failure noFail "z" { returncode := 1, stdout := "", stderr := "boom" }
    50 stAB (by decide) (by decide) rfl (by decide)

/-- C7: the diff of a successful run is absent when no expected output was
supplied; when supplied it is the line-based unified diff of the expected
output against the captured stdout with the "expected_output" and
"actual_output" labels; and when the expected output equals the captured
stdout exactly it is empty (given the unified-diff primitive's property
that equal line sequences produce no diff lines). -/
theorem run_program_diff_behaviour
    (fsFail : String → Bool) (env : RunEnv) (st : SvcState) (fid inp : String)
    (exp : Option String) (info : FileInfo) (out err : String) (rc : Int) (g : Bool)
    (hl : storeLookup st.diskStore fid = some info)
    (he : ¬ info.expiration < env.now)
    (hp : env.proc = .completed out err rc g)
    (hg : fsFail "gmon.out" = false)
    (hud : ∀ (a : List String) (f t : String), env.udiff a a f t = []) :
    ∃ st' d rep, run_program fsFail env st fid inp exp =
        .ok (.success { stdout := out, stderr := err, diff := d,
                        run_time := env.elapsed, profiling_report := rep }, st')
      ∧ (exp = none → d = none)
      ∧ (∀ e, exp = some e → d = some (String.join (env.udiff (splitlines_keepends e)
          (splitlines_keepends out) "expected_output" "actual_output")))
      ∧ (exp = some out → d = some "") := by
  refine ⟨_, _, _,
    run_program_completed_eq fsFail env st fid inp exp info out err rc g hl he hp hg,
    ?_, ?_, ?_⟩
  · rintro rfl
    rfl
  · rintro e rfl
    rfl
  · rintro rfl
    show some (String.join (env.udiff (splitlines_keepends out) (splitlines_keepends out)
      "expected_output" "actual_output")) = some ""
    rw [hud]
    rfl

/-- C7 witness: the diff statement for the concrete record "b" with
expected output equal to the captured stdout "hi". -/
theorem run_program_diff_behaviour_witness :
    ∃ st' d rep, run_program noFail envRunB stAB "b" "" (some "hi") =
        .ok (.success { stdout := "hi", stderr := "", diff := d,
                        run_time := 1, profiling_report := rep }, st')
      ∧ (some "hi" = none → d = none)
      ∧ (∀ e, some "hi" = some e → d = some (String.join (envRunB.udiff
          (splitlines_keepends e) (splitlines_keepends "hi")
          "expected_output" "actual_output")))
      ∧ (some "hi" = some "hi" → d = some "") :=
  run_program_diff_behaviour noFail envRunB stAB "b" "" (some "hi") infoB "hi" "" 0 false
    (by decide) (by decide) rfl rfl (fun a f t => rfl)

/-- C8: the profiling report of a successful run equals gprof's captured
stdout transformed by exactly four passes of the two-space collapse and
then truncated to its first 500 characters, in that order. -/
theorem run_profiling_report_shape
    (fsFail : String → Bool) (env : RunEnv) (st : SvcState) (fid inp : String)
    (exp : Option String) (info : FileInfo) (out err : String) (rc : Int) (g : Bool)
    (hl : storeLookup st.diskStore fid = some info)
    (he : ¬ info.expiration < env.now)
    (hp : env.proc = .completed out err rc g)
    (hg : fsFail "gmon.out" = false) :
    ∃ st' d, run_program fsFail env st fid inp exp =
      .ok (.success { stdout := out, stderr := err, diff := d,
                      run_time := env.elapsed,
                      profiling_report := takeChars 500 (replaceDoubleSpace
                        (replaceDoubleSpace (replaceDoubleSpace
                          (replaceDoubleSpace env.gprof_stdout)))) }, st') :=
  ⟨_, _, run_program_completed_eq fsFail env st fid inp exp info out err rc g hl he hp hg⟩

/-- C8 witness: the report statement with a concrete gprof output holding a
run of four spaces, collapsed by the four passes. -/
theorem run_profiling_report_shape_witness :
    ∃ st' d, run_program noFail { envRunB with gprof_stdout := "a    b" } stAB "b" "" none =
      .ok (.success { stdout := "hi", stderr := "", diff := d,
                      run_time := 1,
                      profiling_report := takeChars 500 (replaceDoubleSpace
                        (replaceDoubleSpace (replaceDoubleSpace
                          (replaceDoubleSpace "a    b")))) }, st') :=
  run_profiling_report_shape noFail { envRunB with gprof_stdout := "a    b" } stAB "b" ""
    none infoB "hi" "" 0 false (by decide) (by decide) rfl rfl

/-- C9: the orchestrator invokes Build first; if the build fails the build
failure is returned as is and the Execution Service is never consulted (the
outcome does not depend on the run environment at all); on build success it
runs the newly minted id with the same stdin and expected output and
returns the combined result in exactly the run's final state — and when the
run succeeded the artifact is still registered afterwards. -/
theorem create_and_run_orchestration
    (fsFail : String → Bool) (fid : String) (compile : CompileOutcome)
    (createNow : Nat) (env : RunEnv) (st : SvcState) (inp : String)
    (exp : Option String)
    (hfresh : storeLookup st.store fid = none) :
    (compile.returncode ≠ 0 →
      (∀ env2 : RunEnv, create_and_run_program fsFail fid compile createNow env st inp exp
          = create_and_run_program fsFail fid compile createNow env2 st inp exp)
      ∧ (∀ fs2, osRemove fsFail (addFile st.fs ("cpps/" ++ fid ++ ".cpp"))
            ("cpps/" ++ fid ++ ".cpp") = .ok fs2 →
          create_and_run_program fsFail fid compile createNow env st inp exp =
            .ok (.buildOnly (.failure compile.stderr), { st with fs := fs2 })))
    ∧ (compile.returncode = 0 →
        ∀ rr st2, run_program fsFail env (createdState fid createNow st) fid inp exp
            = .ok (rr, st2) →
          create_and_run_program fsFail fid compile createNow env st inp exp =
            .ok (.combined (.success fid) rr, st2)
          ∧ (∀ r, rr = .success r →
              storeLookup st2.store fid = some (mkInfo fid createNow))) := by
  constructor
  · intro hrc
    constructor
    · intro env2
      simp only [create_and_run_program,
        create_program_rc_ne fsFail fid compile createNow st hrc]
      cases hos : osRemove fsFail (addFile st.fs ("cpps/" ++ fid ++ ".cpp"))
          ("cpps/" ++ fid ++ ".cpp") with
      | error e => rfl
      | ok fs2 => rfl
    · intro fs2 hos
      simp only [create_and_run_program,
        create_program_rc_ne fsFail fid compile createNow st hrc, hos]
  · intro hrc rr st2 hrun
    constructor
    · simp only [create_and_run_program,
        create_program_rc_zero_eq fsFail fid compile createNow st hrc, hrun]
    · intro r hrr
      subst hrr
      have hstate := run_success_state fsFail env (createdState fid createNow st)
        fid inp exp r st2 hrun
      rw [hstate.1]
      exact storeLookup_append_fresh st.store fid (mkInfo fid createNow) hfresh

/-- C9 witness: the orchestration statement for a fresh id "z" compiled
successfully at time 50 against the concrete state `stAB`. -/
theorem create_and_run_orchestration_witness :
    storeLookup stAB.store "z" = none
    ∧ ((({ returncode := 0, stdout := "", stderr := "" } : CompileOutcome).returncode ≠ 0 →
        (∀ env2 : RunEnv, create_and_run_program noFail "z"
            { returncode := 0, stdout := "", stderr := "" } 50 envRunB stAB "" none
          = create_and_run_program noFail "z"
            { returncode := 0, stdout := "", stderr := "" } 50 env2 stAB "" none)
        ∧ (∀ fs2, osRemove noFail (addFile stAB.fs ("cpps/" ++ "z" ++ ".cpp"))
              ("cpps/" ++ "z" ++ ".cpp") = .ok fs2 →
            create_and_run_program noFail "z"
              { returncode := 0, stdout := "", stderr := "" } 50 envRunB stAB "" none =
              .ok (.buildOnly (.failure ""), { stAB with fs := fs2 })))
      ∧ (({ returncode := 0, stdout := "", stderr := "" } : CompileOutcome).returncode = 0 →
          ∀ rr st2, run_program noFail envRunB (createdState "z" 50 stAB) "z" "" none
              = .ok (rr, st2) →
            create_and_run_program noFail "z"
              { returncode := 0, stdout := "", stderr := "" } 50 envRunB stAB "" none =
              .ok (.combined (.success "z") rr, st2)
            ∧ (∀ r, rr = .success r →
                storeLookup st2.store "z" = some (mkInfo "z" 50)))) :=
  ⟨by decide, create_and_run_orchestration noFail "z"
    { returncode := 0, stdout := "", stderr := "" } 50 envRunB stAB "" none (by decide)⟩

end PolyglotCpp
